import Mathlib

/-!
Shallow embedding of the BoringHannover event-aggregation core
(`src/boringhannover/models.py` and `src/boringhannover/aggregator.py`).

Modelling conventions:
- A Python `datetime` is a wall-clock reading in whole minutes together with
  an optional resolved UTC offset (`none` models an offset-naive datetime, or
  a tzinfo whose `utcoffset` is `None`).  Comparison of aware datetimes in
  Python compares instants, i.e. wall minus offset.
- `ZoneInfo("Europe/Berlin")` is modelled by its pair of offset functions
  (offset as a function of local wall time for `replace`/`utcoffset`, and
  offset as a function of the UTC instant for `astimezone`).  The claims under
  verification do not depend on DST transitions, so the offsets are the Berlin
  standard offset of +60 minutes.
- Exceptions are modelled with `Except`; a raised exception inside the
  orchestrator's per-source `try` is a value of the error type.
- `datetime.now(BERLIN_TZ)` is modelled by an explicit clock: a function from
  the index of the reading (0 for the first reading in a run) to the datetime
  it returns.
-/

/-- Offset behaviour of a Python `tzinfo`: `offAtWall` gives the UTC offset in
minutes as a function of the local wall-clock time (used by `replace`/
`utcoffset`); `offAtUtc` gives the offset as a function of the UTC instant
(used by `astimezone`/`fromutc`). -/
structure PyTz where
  offAtWall : Int → Int
  offAtUtc : Int → Int

/-- Model of `ZoneInfo("Europe/Berlin")` from `constants.py`; the time-zone
database is outside the repository, so the zone is modelled as its standard
offset UTC+01:00 (60 minutes); no claim under verification depends on DST. -/
def BERLIN_TZ : PyTz := { offAtWall := fun _ => 60, offAtUtc := fun _ => 60 }

/-- A Python `datetime`: wall-clock minutes plus the resolved UTC offset of its
tzinfo (`none` = offset-naive). -/
structure PyDatetime where
  wall : Int
  tzoff : Option Int
deriving DecidableEq

/-- Instant of a datetime in UTC minutes (Python compares aware datetimes by
instant; naive datetimes are only ever compared after normalization to an
aware value, so the `getD 0` default is never exercised by the claims). -/
def PyDatetime.inst (d : PyDatetime) : Int :=
  d.wall - d.tzoff.getD 0

/-- Boolean `<=` on datetimes, as Python compares two aware datetimes. -/
def dtLe (a b : PyDatetime) : Bool :=
  decide (a.inst ≤ b.inst)

/-- Model of `d + timedelta(days = n)` on an aware datetime: the wall clock
advances, the tzinfo is kept. -/
def addDays (d : PyDatetime) (n : Int) : PyDatetime :=
  { wall := d.wall + n * 1440, tzoff := d.tzoff }

/-- The closed category enumeration `EventCategory` of `models.py`. -/
inductive EventCategory
  | movie
  | culture
  | radar
deriving DecidableEq

/-- One value of the source-specific metadata map
(`dict[str, str | int | list[str]]`). -/
inductive MetaVal
  | s (v : String)
  | i (v : Int)
  | ls (v : List String)
deriving DecidableEq

/-- The open string-keyed metadata map of an event. -/
abbrev EventMetadata : Type := List (String × MetaVal)

/-- The `Event` dataclass of `models.py` (fields only; the validation and
normalization of `__post_init__` live in `mkEvent`). -/
structure Event where
  title : String
  date : PyDatetime
  venue : String
  url : String
  category : EventCategory
  metadata : EventMetadata
deriving DecidableEq

/-- The `date` argument passed to the `Event` constructor before the
`isinstance(self.date, datetime)` check: either an actual datetime or some
other Python value. -/
inductive DateInput
  | dt (d : PyDatetime)
  | notADatetime
deriving DecidableEq

/-- The exceptions raised by `Event.__post_init__`. -/
inductive PyErr
  | typeError
  | valueError
deriving DecidableEq

/-- Timezone normalization of `models.py` lines 74-77: a naive datetime is
stamped with `BERLIN_TZ` (`replace(tzinfo = BERLIN_TZ)`, wall clock kept); an
aware datetime is converted to the equivalent instant in `BERLIN_TZ`
(`astimezone(BERLIN_TZ)`). -/
def normalizeDate (d : PyDatetime) : PyDatetime :=
  match d.tzoff with
  | none => { wall := d.wall, tzoff := some (BERLIN_TZ.offAtWall d.wall) }
  | some o =>
      let u := d.wall - o
      { wall := u + BERLIN_TZ.offAtUtc u, tzoff := some (BERLIN_TZ.offAtUtc u) }

/-- Model of Python `str.strip()`: drop whitespace code points from both ends
(strings are sequences of code points, so this works on `String.data`). -/
def pyStrip (s : String) : String :=
  String.mk (((s.data.dropWhile Char.isWhitespace).reverse.dropWhile
    Char.isWhitespace).reverse)

/-- Model of Python `str.startswith(p)`: code-point prefix test. -/
def pyStartsWith (s p : String) : Bool :=
  p.data.isPrefixOf s.data

/-- Construction of an `Event`, i.e. the dataclass field assignment followed by
`Event.__post_init__` of `models.py` lines 63-99: date type check, timezone
normalization, then title, venue and url validation, in source order.
Python's `str.strip` is modelled by `pyStrip`, `startswith` by `pyStartsWith`
and `len` by `String.length` (code points). -/
def mkEvent (title : String) (dateIn : DateInput) (venue url : String)
    (category : EventCategory) (metadata : EventMetadata) : Except PyErr Event :=
  match dateIn with
  | DateInput.notADatetime => Except.error PyErr.typeError
  | DateInput.dt d =>
      let date := normalizeDate d
      if title.isEmpty || (pyStrip title).isEmpty then
        Except.error PyErr.valueError
      else if title.length > 200 then
        Except.error PyErr.valueError
      else if venue.length > 100 then
        Except.error PyErr.valueError
      else if !url.isEmpty && url.length > 500 then
        Except.error PyErr.valueError
      else if !url.isEmpty && !(pyStartsWith url "http://" || pyStartsWith url "https://") then
        Except.error PyErr.valueError
      else
        Except.ok { title := title, date := date, venue := venue, url := url,
                    category := category, metadata := metadata }

/-- Construction with the `metadata` argument omitted: the dataclass default
`field(default_factory = dict)` supplies a fresh empty map. -/
def mkEventDefault (title : String) (dateIn : DateInput) (venue url : String)
    (category : EventCategory) : Except PyErr Event :=
  mkEvent title dateIn venue url category []

/-- The `is_within_next_days` query of `models.py` lines 139-153.  `now` models
the `datetime.now(BERLIN_TZ)` reading made inside the method at call time. -/
def Event.is_within_next_days (e : Event) (now : PyDatetime) (days : Int) : Bool :=
  if days < 0 then
    false
  else
    dtLe now e.date && dtLe e.date (addDays now days)

instance {ε α : Type} [DecidableEq ε] [DecidableEq α] : DecidableEq (Except ε α) := fun a b =>
  match a, b with
  | Except.error x, Except.error y =>
      if h : x = y then Decidable.isTrue (congrArg Except.error h)
      else Decidable.isFalse (fun c => h (Except.error.inj c))
  | Except.ok x, Except.ok y =>
      if h : x = y then Decidable.isTrue (congrArg Except.ok h)
      else Decidable.isFalse (fun c => h (Except.ok.inj c))
  | Except.error _, Except.ok _ => Decidable.isFalse (fun c => Except.noConfusion c)
  | Except.ok _, Except.error _ => Decidable.isFalse (fun c => Except.noConfusion c)

/-- Behaviour of an instantiated source object: its `enabled` flag and the
outcome of calling `fetch()` (`Except.error` models `fetch()` raising). -/
structure SourceObj where
  enabled : Bool
  fetchResult : Except Unit (List Event)
deriving DecidableEq

/-- Behaviour of a registered source class: instantiation (`source_cls()`)
either raises or yields a source object. -/
inductive SourceCls
  | initRaises
  | ok (obj : SourceObj)
deriving DecidableEq

/-- Observable actions of one run of `fetch_all_events`, in program order:
`instantiate` marks the `source_cls()` call (aggregator.py line 64), `skip`
the disabled-source `continue` (line 69), `sleep` the
`time.sleep(SCRAPE_DELAY_SECONDS)` rate-limiting delay (line 77), `fetchStart`
the `source.fetch()` call (line 80), and `fail` the logged per-source
exception (line 97). -/
inductive Act
  | instantiate (name : String)
  | skip (name : String)
  | sleep
  | fetchStart (name : String)
  | fail (name : String)
deriving DecidableEq

/-- Loop state of `fetch_all_events`: the two accumulators, the `source_count`
rate-limiting counter, and the trace of actions so far. -/
structure AggSt where
  all_movies : List Event
  radar_events : List Event
  source_count : Nat
  trace : List Act
deriving DecidableEq

/-- Boolean test for the `event.category == "movie"` categorization. -/
def isMovieB (e : Event) : Bool :=
  decide (e.category = EventCategory.movie)

/-- One iteration of the per-source loop of `fetch_all_events`
(aggregator.py lines 62-99), for the source named `p.1` whose class behaves
as `p.2`.  Instantiation happens before the `enabled` check; a disabled
source leaves `source_count` unchanged; the delay runs only when
`source_count > 0`; both the exception path and the success path increment
`source_count`. -/
def stepSource (st : AggSt) (p : String × SourceCls) : AggSt :=
  match p.2 with
  | SourceCls.initRaises =>
      { st with source_count := st.source_count + 1,
                trace := st.trace ++ [Act.instantiate p.1, Act.fail p.1] }
  | SourceCls.ok obj =>
      if obj.enabled then
        let pre := st.trace ++ [Act.instantiate p.1]
          ++ (if st.source_count > 0 then [Act.sleep] else []) ++ [Act.fetchStart p.1]
        match obj.fetchResult with
        | Except.error _ =>
            { st with source_count := st.source_count + 1, trace := pre ++ [Act.fail p.1] }
        | Except.ok evs =>
            { all_movies := st.all_movies ++ evs.filter isMovieB,
              radar_events := st.radar_events ++ evs.filter (fun e => !isMovieB e),
              source_count := st.source_count + 1,
              trace := pre }
      else
        { st with trace := st.trace ++ [Act.instantiate p.1, Act.skip p.1] }

/-- The two result buckets returned by `fetch_all_events`. -/
structure AggResult where
  movies_this_week : List Event
  big_events_radar : List Event
deriving DecidableEq

/-- Ascending-by-date order used by both `sorted(..., key = lambda e: e.date)`
calls: aware datetimes compare by instant. -/
def dateLE (a b : Event) : Prop :=
  a.date.inst ≤ b.date.inst

instance : DecidableRel dateLE :=
  fun a b => inferInstanceAs (Decidable (a.date.inst ≤ b.date.inst))

instance : IsTotal Event dateLE :=
  ⟨fun a b => Int.le_total a.date.inst b.date.inst⟩

instance : IsTrans Event dateLE :=
  ⟨fun _ _ _ hab hbc => le_trans hab hbc⟩

/-- Modelled from the spec: the movie lookahead window in days.  The
aggregator imports `MOVIES_LOOKAHEAD_DAYS` from `boringhannover.constants`,
whose file under `src/` defines the unified two-week lookahead
`EVENT_LOOKAHEAD_DAYS = 14`; the spec fixes the window as "movie lookahead
window (days, integer >= 0)". -/
def MOVIES_LOOKAHEAD_DAYS : Int := 14

/-- The orchestrator `fetch_all_events` of aggregator.py lines 33-123, over an
explicit registry snapshot (`get_all_sources()` output, in iteration order)
and an explicit clock.  Reading 0 is `today = datetime.now(BERLIN_TZ)` at
line 49; the movie filter at line 103 calls `is_within_next_days`, which
performs one further `datetime.now(BERLIN_TZ)` reading per accumulated movie
event, in accumulator order (readings 1, 2, ...).  Python's stable `sorted`
is modelled by `List.insertionSort`, which is stable.  Returns the result
buckets together with the trace of observable actions. -/
def fetch_all_events (sources : List (String × SourceCls)) (clock : Nat → PyDatetime) :
    AggResult × List Act :=
  let today := clock 0
  let st := sources.foldl stepSource
    { all_movies := [], radar_events := [], source_count := 0, trace := [] }
  let kept := (st.all_movies.enum.filter
      (fun q => q.2.is_within_next_days (clock (1 + q.1)) MOVIES_LOOKAHEAD_DAYS)).map
    (fun q => q.2)
  let movies_this_week := List.insertionSort dateLE kept
  let big_events_radar := List.insertionSort dateLE
    (st.radar_events.filter (fun r => dtLe today r.date))
  ({ movies_this_week := movies_this_week, big_events_radar := big_events_radar }, st.trace)

/-- Events contributed by one source class in the loop: none when
instantiation raises, the source is disabled, or `fetch()` raises; the fetched
list otherwise. -/
def okEvents : SourceCls → List Event
  | SourceCls.initRaises => []
  | SourceCls.ok obj =>
      if obj.enabled then
        match obj.fetchResult with
        | Except.ok evs => evs
        | Except.error _ => []
      else []

/-- Update of `source_count` by one loop iteration: incremented on the
exception path and on the success path, unchanged for a disabled source. -/
def nextCount (c : Nat) (p : String × SourceCls) : Nat :=
  match p.2 with
  | SourceCls.initRaises => c + 1
  | SourceCls.ok obj => if obj.enabled then c + 1 else c

/-- Trace chunk emitted by one loop iteration when entered with
`source_count = c`. -/
def srcTrace (c : Nat) (p : String × SourceCls) : List Act :=
  match p.2 with
  | SourceCls.initRaises => [Act.instantiate p.1, Act.fail p.1]
  | SourceCls.ok obj =>
      if obj.enabled then
        [Act.instantiate p.1] ++ (if c > 0 then [Act.sleep] else []) ++ [Act.fetchStart p.1]
          ++ (match obj.fetchResult with
              | Except.error _ => [Act.fail p.1]
              | Except.ok _ => [])
      else [Act.instantiate p.1, Act.skip p.1]

/-- Trace of the whole loop over a source list, entered with
`source_count = c`. -/
def tracesFrom (c : Nat) : List (String × SourceCls) → List Act
  | [] => []
  | p :: l => srcTrace c p ++ tracesFrom (nextCount c p) l

/-- All events returned by the sources of a run, in loop order. -/
def collected (sources : List (String × SourceCls)) : List Event :=
  (sources.map (fun p => okEvents p.2)).flatten

/-- The movie-category events returned by the sources, in accumulator order. -/
def collectedMovies (sources : List (String × SourceCls)) : List Event :=
  (collected sources).filter isMovieB

/-- The non-movie-category events returned by the sources, in accumulator
order. -/
def collectedRadar (sources : List (String × SourceCls)) : List Event :=
  (collected sources).filter (fun e => !isMovieB e)

lemma foldl_stepSource_eq (l : List (String × SourceCls)) : ∀ st : AggSt,
    l.foldl stepSource st =
      { all_movies := st.all_movies ++ (collected l).filter isMovieB,
        radar_events := st.radar_events ++ (collected l).filter (fun e => !isMovieB e),
        source_count := l.foldl nextCount st.source_count,
        trace := st.trace ++ tracesFrom st.source_count l } := by
  induction l with
  | nil => intro st; simp [collected, tracesFrom]
  | cons p l ih =>
      intro st
      rw [List.foldl_cons, ih]
      rcases p with ⟨n, cls⟩
      cases cls with
      | initRaises =>
          simp [stepSource, collected, tracesFrom, srcTrace, nextCount, okEvents,
            List.filter_append, List.append_assoc]
      | ok obj =>
          by_cases he : obj.enabled
          · cases hf : obj.fetchResult with
            | error u =>
                simp [stepSource, collected, tracesFrom, srcTrace, nextCount, okEvents, he, hf,
                  List.filter_append, List.append_assoc]
            | ok evs =>
                simp [stepSource, collected, tracesFrom, srcTrace, nextCount, okEvents, he, hf,
                  List.filter_append, List.append_assoc]
          · simp [stepSource, collected, tracesFrom, srcTrace, nextCount, okEvents, he,
              List.filter_append, List.append_assoc]

lemma fetch_all_events_eq (sources : List (String × SourceCls)) (clock : Nat → PyDatetime) :
    fetch_all_events sources clock =
      ({ movies_this_week := List.insertionSort dateLE
            ((((collectedMovies sources).enum.filter
                (fun q => q.2.is_within_next_days (clock (1 + q.1)) MOVIES_LOOKAHEAD_DAYS)).map
              (fun q => q.2))),
         big_events_radar := List.insertionSort dateLE
            ((collectedRadar sources).filter (fun r => dtLe (clock 0) r.date)) },
       tracesFrom 0 sources) := by
  unfold fetch_all_events
  rw [foldl_stepSource_eq]
  simp [collectedMovies, collectedRadar]

/-- Spec-side window predicate for the movie bucket: date in
`[now, now + lookahead_days]`, both boundaries inclusive, compared as
instants. -/
def inMovieWindow (now : PyDatetime) (e : Event) : Bool :=
  decide (now.inst ≤ e.date.inst) &&
    decide (e.date.inst ≤ now.inst + MOVIES_LOOKAHEAD_DAYS * 1440)

/-- Spec-side cutoff predicate for the radar bucket: date at or after `now`,
compared as instants. -/
def onOrAfter (now : PyDatetime) (e : Event) : Bool :=
  decide (now.inst ≤ e.date.inst)

lemma enumFrom_filter_map_snd (g : Event → Bool) : ∀ (n : Nat) (l : List Event),
    ((List.enumFrom n l).filter (fun q => g q.2)).map (fun q => q.2) = l.filter g := by
  intro n l
  induction l generalizing n with
  | nil => simp
  | cons a l ih =>
      cases h : g a <;> simp [List.enumFrom, List.filter_cons, h, ih]

lemma is_within_eq_inMovieWindow (t0 : PyDatetime) (e : Event) :
    e.is_within_next_days t0 MOVIES_LOOKAHEAD_DAYS = inMovieWindow t0 e := by
  have h14 : ¬ (MOVIES_LOOKAHEAD_DAYS < 0) := by decide
  simp only [Event.is_within_next_days, inMovieWindow, dtLe, addDays, PyDatetime.inst, h14,
    if_false]
  by_cases h1 : t0.wall - t0.tzoff.getD 0 ≤ e.date.wall - e.date.tzoff.getD 0 <;>
    by_cases h2 : e.date.wall - e.date.tzoff.getD 0 ≤
        t0.wall + MOVIES_LOOKAHEAD_DAYS * 1440 - t0.tzoff.getD 0 <;>
      simp [h1, h2] <;> omega

/-- C9: for every Event and every integer `n`, `is_within_next_days` returns
`False` for `n < 0`, and otherwise returns `True` iff
`now ≤ date ≤ now + n days` with both boundaries inclusive, where `now` is the
reference reading made at call time. -/
theorem is_within_next_days_iff_window (e : Event) (now : PyDatetime) (n : Int) :
    e.is_within_next_days now n = true ↔
      0 ≤ n ∧ now.inst ≤ e.date.inst ∧ e.date.inst ≤ now.inst + n * 1440 := by
  unfold Event.is_within_next_days
  by_cases hn : n < 0
  · simp [hn]
  · simp [hn, dtLe, addDays, PyDatetime.inst]
    constructor
    · intro h
      exact ⟨by omega, h.1, by have := h.2; omega⟩
    · intro h
      exact ⟨h.2.1, by have := h.2.2; omega⟩

/-- C1: for every run of `fetch_all_events` (at reference time `t0`), the
returned `movies_this_week` list contains exactly the movie-category events
returned by the sources whose date lies in `[now, now + lookahead_days]`,
both boundaries inclusive, sorted ascending by date; movie events outside the
window are excluded even if a source returned them. -/
theorem movies_bucket_window_sorted (sources : List (String × SourceCls)) (t0 : PyDatetime) :
    ((fetch_all_events sources (fun _ => t0)).1.movies_this_week).Perm
        ((collectedMovies sources).filter (inMovieWindow t0))
    ∧ List.Sorted dateLE ((fetch_all_events sources (fun _ => t0)).1.movies_this_week) := by
  rw [fetch_all_events_eq]
  have hfil : (((collectedMovies sources).enum.filter
        (fun q => q.2.is_within_next_days t0 MOVIES_LOOKAHEAD_DAYS)).map (fun q => q.2))
      = (collectedMovies sources).filter (inMovieWindow t0) := by
    have h1 := enumFrom_filter_map_snd
      (fun e => e.is_within_next_days t0 MOVIES_LOOKAHEAD_DAYS) 0 (collectedMovies sources)
    exact h1.trans (List.filter_congr (fun e _ => is_within_eq_inMovieWindow t0 e))
  constructor
  · simpa [hfil] using
      List.perm_insertionSort dateLE ((collectedMovies sources).filter (inMovieWindow t0))
  · simpa [hfil] using
      List.sorted_insertionSort dateLE ((collectedMovies sources).filter (inMovieWindow t0))

/-- C4: for every run of `fetch_all_events`, the returned `big_events_radar`
list contains exactly the non-movie-category events returned by the sources
whose date is at or after the run's reference time `now` (the first clock
reading), sorted ascending by date; events dated before `now` are
excluded. -/
theorem radar_bucket_from_now_sorted (sources : List (String × SourceCls))
    (clock : Nat → PyDatetime) :
    ((fetch_all_events sources clock).1.big_events_radar).Perm
        ((collectedRadar sources).filter (onOrAfter (clock 0)))
    ∧ List.Sorted dateLE ((fetch_all_events sources clock).1.big_events_radar) := by
  rw [fetch_all_events_eq]
  have hfun : (fun r => dtLe (clock 0) r.date) = onOrAfter (clock 0) := rfl
  constructor
  · simpa [hfun] using
      List.perm_insertionSort dateLE ((collectedRadar sources).filter (onOrAfter (clock 0)))
  · simpa [hfun] using
      List.sorted_insertionSort dateLE ((collectedRadar sources).filter (onOrAfter (clock 0)))

lemma collected_append (a b : List (String × SourceCls)) :
    collected (a ++ b) = collected a ++ collected b := by
  simp [collected]

/-- A source that raises an exception during the run: either its
instantiation raises, or it is enabled and its `fetch()` raises. -/
def SourceCls.failing : SourceCls → Prop
  | SourceCls.initRaises => True
  | SourceCls.ok obj => obj.enabled = true ∧ ∃ u, obj.fetchResult = Except.error u

lemma okEvents_failing (cls : SourceCls) (h : cls.failing) : okEvents cls = [] := by
  cases cls with
  | initRaises => rfl
  | ok obj =>
      rcases h with ⟨he, u, hf⟩
      simp [okEvents, he, hf]

/-- C3: a source that raises (from instantiation or fetch) never aborts the
run; `fetch_all_events` returns the buckets aggregating the remaining
sources' events, exactly as if the failing source were absent.  (The
embedding of the orchestrator is a total function: the per-source exception
is consumed by the `try/except` of aggregator.py lines 63-99 and no error
escapes.) -/
theorem failing_source_isolated (l1 l2 : List (String × SourceCls)) (n : String)
    (cls : SourceCls) (clock : Nat → PyDatetime) (h : cls.failing) :
    (fetch_all_events (l1 ++ (n, cls) :: l2) clock).1
      = (fetch_all_events (l1 ++ l2) clock).1 := by
  have hc : collected (l1 ++ (n, cls) :: l2) = collected (l1 ++ l2) := by
    simp [collected_append, collected, okEvents_failing cls h]
  rw [fetch_all_events_eq, fetch_all_events_eq]
  simp [collectedMovies, collectedRadar, hc]

theorem failing_source_isolated_witness :
    SourceCls.failing SourceCls.initRaises ∧
      (fetch_all_events
          ([("a", SourceCls.ok { enabled := true, fetchResult := Except.ok [] })]
            ++ ("b", SourceCls.initRaises) :: [])
          (fun _ => { wall := 0, tzoff := some 60 })).1
        = (fetch_all_events
            ([("a", SourceCls.ok { enabled := true, fetchResult := Except.ok [] })] ++ [])
            (fun _ => { wall := 0, tzoff := some 60 })).1 :=
  ⟨trivial,
    failing_source_isolated
      [("a", SourceCls.ok { enabled := true, fetchResult := Except.ok [] })] [] "b"
      SourceCls.initRaises (fun _ => { wall := 0, tzoff := some 60 }) trivial⟩

/-- Concrete movie event one day after wall-clock 0, used as a counterexample
input. -/
def cexMovieEvent : Event :=
  { title := "A", date := { wall := 1440, tzoff := some 60 }, venue := "V", url := "",
    category := EventCategory.movie, metadata := [] }

/-- One enabled source returning `cexMovieEvent`. -/
def cexSources : List (String × SourceCls) :=
  [("s", SourceCls.ok { enabled := true, fetchResult := Except.ok [cexMovieEvent] })]

/-- A clock whose readings are all equal. -/
def clockConst : Nat → PyDatetime := fun _ => { wall := 0, tzoff := some 60 }

/-- A clock whose first reading matches `clockConst` but whose later readings
have advanced past `cexMovieEvent`. -/
def clockLate : Nat → PyDatetime := fun n =>
  if n = 0 then { wall := 0, tzoff := some 60 } else { wall := 6000, tzoff := some 60 }

/-- C2 counterexample: two runs on identical source outputs whose clocks agree
on the run-start reading but differ afterwards return different
`movies_this_week` buckets, so the wall clock is not read exactly once per
run: `is_within_next_days` re-reads it during movie filtering. -/
theorem now_reread_during_movie_filter_cex :
    clockLate 0 = clockConst 0 ∧
      (fetch_all_events cexSources clockLate).1.movies_this_week
        ≠ (fetch_all_events cexSources clockConst).1.movies_this_week := by
  constructor
  · rfl
  · decide

/-- C2 amended: the run-start reading (`today`, aggregator.py line 49) is the
sole reference for the radar bucket, so later clock readings cannot change
`big_events_radar`; the movie filter however calls `is_within_next_days`,
which re-reads the wall clock once per accumulated movie event, so later
readings can change `movies_this_week`. -/
theorem radar_independent_of_later_readings (sources : List (String × SourceCls))
    (clockA clockB : Nat → PyDatetime) (h : clockA 0 = clockB 0) :
    (fetch_all_events sources clockA).1.big_events_radar
      = (fetch_all_events sources clockB).1.big_events_radar := by
  rw [fetch_all_events_eq, fetch_all_events_eq]
  simp [h]

theorem radar_independent_of_later_readings_witness :
    clockLate 0 = clockConst 0 ∧
      (fetch_all_events cexSources clockLate).1.big_events_radar
        = (fetch_all_events cexSources clockConst).1.big_events_radar :=
  ⟨rfl, radar_independent_of_later_readings cexSources clockLate clockConst rfl⟩

lemma tracesFrom_append (a b : List (String × SourceCls)) : ∀ c : Nat,
    tracesFrom c (a ++ b) = tracesFrom c a ++ tracesFrom (a.foldl nextCount c) b := by
  induction a with
  | nil => intro c; simp [tracesFrom]
  | cons p a ih => intro c; simp [tracesFrom, ih, List.append_assoc]

/-- C5 amended: a registered source whose `enabled` flag is false is
instantiated (aggregator.py line 64 runs before the `enabled` check of line
67) and then skipped: its `fetch` is never called, it contributes zero
events, and it consumes no delay slot — the run's buckets and the rest of the
trace are exactly those of the run without it, with only the
`instantiate`/`skip` pair inserted. -/
theorem disabled_source_skipped (l1 l2 : List (String × SourceCls)) (n : String)
    (f : Except Unit (List Event)) (clock : Nat → PyDatetime) :
    (fetch_all_events (l1 ++ (n, SourceCls.ok { enabled := false, fetchResult := f }) :: l2)
        clock).1
      = (fetch_all_events (l1 ++ l2) clock).1
    ∧ ∃ t1 t2,
        (fetch_all_events (l1 ++ l2) clock).2 = t1 ++ t2
        ∧ (fetch_all_events (l1 ++ (n, SourceCls.ok { enabled := false, fetchResult := f }) :: l2)
              clock).2
            = t1 ++ [Act.instantiate n, Act.skip n] ++ t2 := by
  constructor
  · have hc : collected (l1 ++ (n, SourceCls.ok { enabled := false, fetchResult := f }) :: l2)
        = collected (l1 ++ l2) := by
      simp [collected_append, collected, okEvents]
    rw [fetch_all_events_eq, fetch_all_events_eq]
    simp [collectedMovies, collectedRadar, hc]
  · refine ⟨tracesFrom 0 l1, tracesFrom (l1.foldl nextCount 0) l2, ?_, ?_⟩
    · rw [fetch_all_events_eq]
      simp [tracesFrom_append]
    · rw [fetch_all_events_eq]
      simp [tracesFrom_append, tracesFrom, srcTrace, nextCount]

/-- One disabled source. -/
def disabledCexSources : List (String × SourceCls) :=
  [("s", SourceCls.ok { enabled := false, fetchResult := Except.ok [] })]

/-- C5 counterexample: the orchestrator does instantiate a disabled source
(the `source_cls()` call at aggregator.py line 64 precedes the `enabled`
check at line 67), refuting "the plugin is not instantiated". -/
theorem disabled_source_instantiated_cex :
    Act.instantiate "s" ∈ (fetch_all_events disabledCexSources clockConst).2 := by
  decide

/-- Scanner for "no two fetch starts without an intervening sleep": walks the
trace, remembering whether a `fetchStart` has been seen since the last
`sleep`; a second `fetchStart` in that window fails the check. -/
def spaced (seenFetch : Bool) : List Act → Bool
  | [] => true
  | Act.sleep :: rest => spaced false rest
  | Act.fetchStart _ :: rest => !seenFetch && spaced true rest
  | Act.instantiate _ :: rest => spaced seenFetch rest
  | Act.skip _ :: rest => spaced seenFetch rest
  | Act.fail _ :: rest => spaced seenFetch rest

/-- Scanner for "the delay precedes every fetch after the first attempted
source, regardless of whether prior attempts succeeded or failed": an attempt
is a prior `fail` (a source that raised, at instantiation or fetch) or a
prior `fetchStart`; any later `fetchStart` must be immediately preceded by
`sleep`. -/
def delayedAfterFirst (anyAttempt prevSleep : Bool) : List Act → Bool
  | [] => true
  | Act.fetchStart _ :: rest => (!anyAttempt || prevSleep) && delayedAfterFirst true false rest
  | Act.fail _ :: rest => delayedAfterFirst true false rest
  | Act.sleep :: rest => delayedAfterFirst anyAttempt true rest
  | Act.instantiate _ :: rest => delayedAfterFirst anyAttempt false rest
  | Act.skip _ :: rest => delayedAfterFirst anyAttempt false rest

lemma spaced_tracesFrom : ∀ (l : List (String × SourceCls)) (c : Nat) (seen : Bool),
    (c = 0 → seen = false) → spaced seen (tracesFrom c l) = true := by
  intro l
  induction l with
  | nil => intro c seen _; rfl
  | cons p l ih =>
      intro c seen h
      rcases p with ⟨n, cls⟩
      cases cls with
      | initRaises =>
          simp only [tracesFrom, srcTrace, List.cons_append, List.nil_append, spaced]
          exact ih (c + 1) seen (fun h0 => absurd h0 (Nat.succ_ne_zero c))
      | ok obj =>
          by_cases he : obj.enabled
          · by_cases hc : c = 0
            · have hseen : seen = false := h hc
              cases hf : obj.fetchResult with
              | error u =>
                  simp only [tracesFrom, srcTrace, nextCount, he, hf, hc, hseen, if_true, gt_iff_lt,
                    Nat.lt_irrefl, if_false, List.cons_append, List.nil_append,
                    List.append_nil, spaced, Bool.not_false, Bool.true_and]
                  exact ih 1 true (fun h0 => absurd h0 one_ne_zero)
              | ok evs =>
                  simp only [tracesFrom, srcTrace, nextCount, he, hf, hc, hseen, if_true, gt_iff_lt,
                    Nat.lt_irrefl, if_false, List.cons_append, List.nil_append,
                    List.append_nil, spaced, Bool.not_false, Bool.true_and]
                  exact ih 1 true (fun h0 => absurd h0 one_ne_zero)
            · have hpos : 0 < c := Nat.pos_of_ne_zero hc
              cases hf : obj.fetchResult with
              | error u =>
                  simp only [tracesFrom, srcTrace, nextCount, he, hf, if_true, gt_iff_lt, hpos,
                    List.cons_append, List.nil_append, List.append_nil, spaced,
                    Bool.not_false, Bool.true_and]
                  exact ih (c + 1) true (fun h0 => absurd h0 (Nat.succ_ne_zero c))
              | ok evs =>
                  simp only [tracesFrom, srcTrace, nextCount, he, hf, if_true, gt_iff_lt, hpos,
                    List.cons_append, List.nil_append, List.append_nil, spaced,
                    Bool.not_false, Bool.true_and]
                  exact ih (c + 1) true (fun h0 => absurd h0 (Nat.succ_ne_zero c))
          · simp only [tracesFrom, srcTrace, nextCount, he, if_false, Bool.false_eq_true,
              List.cons_append, List.nil_append, spaced]
            exact ih c seen h

lemma delayed_tracesFrom : ∀ (l : List (String × SourceCls)) (c : Nat) (prev : Bool),
    delayedAfterFirst (decide (c > 0)) prev (tracesFrom c l) = true := by
  intro l
  induction l with
  | nil => intro c prev; rfl
  | cons p l ih =>
      intro c prev
      rcases p with ⟨n, cls⟩
      cases cls with
      | initRaises =>
          simp only [tracesFrom, srcTrace, List.cons_append, List.nil_append,
            delayedAfterFirst]
          simpa using ih (c + 1) false
      | ok obj =>
          by_cases he : obj.enabled
          · by_cases hc : c = 0
            · subst hc
              cases hf : obj.fetchResult with
              | error u =>
                  simp only [tracesFrom, srcTrace, nextCount, he, hf, if_true, gt_iff_lt,
                    Nat.lt_irrefl, if_false, List.cons_append, List.nil_append,
                    List.append_nil, delayedAfterFirst, decide_eq_true_eq]
                  simpa using ih 1 false
              | ok evs =>
                  simp only [tracesFrom, srcTrace, nextCount, he, hf, if_true, gt_iff_lt,
                    Nat.lt_irrefl, if_false, List.cons_append, List.nil_append,
                    List.append_nil, delayedAfterFirst, decide_eq_true_eq]
                  simpa using ih 1 false
            · have hpos : 0 < c := Nat.pos_of_ne_zero hc
              cases hf : obj.fetchResult with
              | error u =>
                  simp only [tracesFrom, srcTrace, nextCount, he, hf, if_true, gt_iff_lt, hpos,
                    List.cons_append, List.nil_append, List.append_nil,
                    delayedAfterFirst]
                  simpa using ih (c + 1) false
              | ok evs =>
                  simp only [tracesFrom, srcTrace, nextCount, he, hf, if_true, gt_iff_lt, hpos,
                    List.cons_append, List.nil_append, List.append_nil,
                    delayedAfterFirst]
                  simpa using ih (c + 1) false
          · simp only [tracesFrom, srcTrace, nextCount, he, if_false, Bool.false_eq_true,
              List.cons_append, List.nil_append, delayedAfterFirst]
            exact ih c false

/-- C6: within one run, the configured inter-source delay is inserted before
every fetch after the first attempted source, regardless of whether prior
attempts succeeded or failed (`delayedAfterFirst`), and consequently no two
sources are ever fetched without a sleep of the configured delay between
their fetch starts (`spaced`). -/
theorem delay_between_fetch_starts (sources : List (String × SourceCls))
    (clock : Nat → PyDatetime) :
    delayedAfterFirst false false (fetch_all_events sources clock).2 = true
    ∧ spaced false (fetch_all_events sources clock).2 = true := by
  rw [fetch_all_events_eq]
  constructor
  · simpa using delayed_tracesFrom sources 0 false
  · exact spaced_tracesFrom sources 0 false (fun _ => rfl)

lemma mkEvent_ok_fields {t v u : String} {c : EventCategory} {m : EventMetadata}
    {d : PyDatetime} {ev : Event}
    (h : mkEvent t (DateInput.dt d) v u c m = Except.ok ev) :
    ev = { title := t, date := normalizeDate d, venue := v, url := u,
           category := c, metadata := m } := by
  simp only [mkEvent] at h
  split_ifs at h
  exact (Except.ok.inj h).symm

/-- C7: Event construction fails with a validation error exactly in the
specified bad cases — title empty or whitespace-only, title longer than 200,
venue longer than 100, url longer than 500, url non-empty with a scheme other
than http/https, or a date that is not a datetime; an Event with invalid data
is never constructed. -/
lemma bool_not_true {b : Bool} (h : (!b) = true) : b = false := by
  cases b
  · rfl
  · cases h

lemma bool_false_not {b : Bool} (h : b = false) : (!b) = true := by
  rw [h]
  rfl

/-- C7: Event construction fails with a validation error exactly in the
specified bad cases — title empty or whitespace-only, title longer than 200,
venue longer than 100, url longer than 500, url non-empty with a scheme other
than http/https, or a date that is not a datetime; an Event with invalid data
is never constructed. -/
theorem event_validation_fails_exactly (t : String) (dIn : DateInput) (v u : String)
    (c : EventCategory) (m : EventMetadata) :
    (∃ err, mkEvent t dIn v u c m = Except.error err) ↔
      (dIn = DateInput.notADatetime ∨ t = "" ∨ pyStrip t = "" ∨ 200 < t.length
        ∨ 100 < v.length ∨ 500 < u.length
        ∨ (u ≠ "" ∧ ¬ (pyStartsWith u "http://" ∨ pyStartsWith u "https://"))) := by
  cases dIn with
  | notADatetime =>
      exact iff_of_true ⟨PyErr.typeError, rfl⟩ (Or.inl rfl)
  | dt d =>
      simp only [mkEvent]
      split_ifs with h1 h2 h3 h4 h5
      · refine iff_of_true ⟨PyErr.valueError, rfl⟩ ?_
        rcases (Bool.or_eq_true _ _).mp h1 with ha | hb
        · exact Or.inr (Or.inl ((String.isEmpty_iff t).mp ha))
        · exact Or.inr (Or.inr (Or.inl ((String.isEmpty_iff (pyStrip t)).mp hb)))
      · exact iff_of_true ⟨PyErr.valueError, rfl⟩ (Or.inr (Or.inr (Or.inr (Or.inl h2))))
      · exact iff_of_true ⟨PyErr.valueError, rfl⟩
          (Or.inr (Or.inr (Or.inr (Or.inr (Or.inl h3)))))
      · refine iff_of_true ⟨PyErr.valueError, rfl⟩ ?_
        rcases (Bool.and_eq_true _ _).mp h4 with ⟨hne, hlen⟩
        exact Or.inr (Or.inr (Or.inr (Or.inr (Or.inr (Or.inl (of_decide_eq_true hlen))))))
      · refine iff_of_true ⟨PyErr.valueError, rfl⟩ ?_
        rcases (Bool.and_eq_true _ _).mp h5 with ⟨hne, hsch⟩
        refine Or.inr (Or.inr (Or.inr (Or.inr (Or.inr (Or.inr ⟨?_, ?_⟩)))))
        · intro he
          subst he
          exact absurd hne (by decide)
        · intro hor
          have hfalse : (pyStartsWith u "http://" || pyStartsWith u "https://") = false :=
            bool_not_true hsch
          rcases Bool.or_eq_false_iff.mp hfalse with ⟨hf1, hf2⟩
          rcases hor with hh | hh
          · rw [hf1] at hh
            cases hh
          · rw [hf2] at hh
            cases hh
      · refine iff_of_false ?_ ?_
        · rintro ⟨err, herr⟩
          exact herr
        · rintro (hdt | ht | htr | hlen | hv | hu | ⟨hune, hsch⟩)
          · exact hdt
          · subst ht
            exact h1 (by decide)
          · refine h1 ?_
            rw [Bool.or_eq_true]
            exact Or.inr ((String.isEmpty_iff (pyStrip t)).mpr htr)
          · exact h2 hlen
          · exact h3 hv
          · refine h4 ?_
            rw [Bool.and_eq_true]
            refine ⟨?_, decide_eq_true hu⟩
            refine bool_false_not ?_
            cases hb : u.isEmpty with
            | false => rfl
            | true =>
                have hu0 : u = "" := (String.isEmpty_iff u).mp hb
                subst hu0
                exact absurd hu (by decide)
          · refine h5 ?_
            rw [Bool.and_eq_true]
            constructor
            · refine bool_false_not ?_
              cases hb : u.isEmpty with
              | false => rfl
              | true => exact absurd ((String.isEmpty_iff u).mp hb) hune
            · refine bool_false_not ?_
              rw [Bool.or_eq_false_iff]
              constructor
              · cases hb : pyStartsWith u "http://" with
                | false => rfl
                | true => exact absurd (Or.inl hb) hsch
              · cases hb : pyStartsWith u "https://" with
                | false => rfl
                | true => exact absurd (Or.inr hb) hsch

/-- C8: successful construction normalizes the stored date — a naive
timestamp keeps its wall-clock value and is stamped with the Berlin offset
for that wall time; an aware timestamp keeps its instant and carries the
Berlin offset of that instant; every constructed Event's date is
timezone-aware. -/
theorem event_date_normalized (t : String) (d : PyDatetime) (v u : String)
    (c : EventCategory) (m : EventMetadata) (ev : Event)
    (h : mkEvent t (DateInput.dt d) v u c m = Except.ok ev) :
    ev.date.tzoff.isSome = true
    ∧ (d.tzoff = none →
        ev.date.wall = d.wall ∧ ev.date.tzoff = some (BERLIN_TZ.offAtWall d.wall))
    ∧ (∀ o : Int, d.tzoff = some o →
        ev.date.inst = d.inst ∧ ev.date.tzoff = some (BERLIN_TZ.offAtUtc (d.wall - o))) := by
  have hev := mkEvent_ok_fields h
  subst hev
  refine ⟨?_, ?_, ?_⟩
  · cases hd : d.tzoff <;> simp [normalizeDate, hd]
  · intro hd
    simp [normalizeDate, hd]
  · intro o hd
    simp only [normalizeDate, hd, PyDatetime.inst, Option.getD_some]
    constructor
    · omega
    · trivial

/-- Concrete expected result of constructing an event from a naive date. -/
def evNaiveW : Event :=
  { title := "A", date := { wall := 100, tzoff := some 60 }, venue := "V", url := "",
    category := EventCategory.movie, metadata := [] }

/-- Concrete expected result of constructing an event from an aware date at
UTC offset 0. -/
def evAwareW : Event :=
  { title := "A", date := { wall := 160, tzoff := some 60 }, venue := "V", url := "",
    category := EventCategory.movie, metadata := [] }

theorem event_date_normalized_witness :
    (∃ ev, mkEvent "A" (DateInput.dt { wall := 100, tzoff := none }) "V" ""
        EventCategory.movie [] = Except.ok ev ∧ ev.date.tzoff.isSome = true)
    ∧ (∃ ev, mkEvent "A" (DateInput.dt { wall := 100, tzoff := some 0 }) "V" ""
        EventCategory.movie [] = Except.ok ev ∧ ev.date.inst = 100) := by
  constructor
  · refine ⟨evNaiveW, by decide, ?_⟩
    exact (event_date_normalized "A" { wall := 100, tzoff := none } "V" ""
      EventCategory.movie [] evNaiveW (by decide)).1
  · refine ⟨evAwareW, by decide, ?_⟩
    have h2 := (event_date_normalized "A" { wall := 100, tzoff := some 0 } "V" ""
      EventCategory.movie [] evAwareW (by decide)).2.2 0 rfl
    simpa using h2.1

/-- C10: successful construction modifies only the date field (the timezone
normalization); title, venue, url, category and metadata are exactly the
caller's values, and a caller omitting metadata gets the empty map supplied
by the default factory. -/
theorem event_construction_frame :
    (∀ (t : String) (d : PyDatetime) (v u : String) (c : EventCategory)
        (m : EventMetadata) (ev : Event),
        mkEvent t (DateInput.dt d) v u c m = Except.ok ev →
          ev.title = t ∧ ev.venue = v ∧ ev.url = u ∧ ev.category = c ∧ ev.metadata = m
            ∧ ev.date = normalizeDate d)
    ∧ (∀ (t : String) (d : PyDatetime) (v u : String) (c : EventCategory) (ev : Event),
        mkEventDefault t (DateInput.dt d) v u c = Except.ok ev → ev.metadata = []) := by
  constructor
  · intro t d v u c m ev h
    have hev := mkEvent_ok_fields h
    subst hev
    exact ⟨rfl, rfl, rfl, rfl, rfl, rfl⟩
  · intro t d v u c ev h
    have h2 : mkEvent t (DateInput.dt d) v u c [] = Except.ok ev := h
    have hev := mkEvent_ok_fields h2
    subst hev
    rfl

/-- Concrete expected result of a construction with explicit metadata. -/
def evFrameW : Event :=
  { title := "A", date := { wall := 100, tzoff := some 60 }, venue := "V",
    url := "https://x.de", category := EventCategory.radar,
    metadata := [("k", MetaVal.i 3)] }

/-- Concrete expected result of a construction with metadata omitted. -/
def evDefaultW : Event :=
  { title := "A", date := { wall := 100, tzoff := some 60 }, venue := "V", url := "",
    category := EventCategory.radar, metadata := [] }

theorem event_construction_frame_witness :
    (∃ ev, mkEvent "A" (DateInput.dt { wall := 100, tzoff := none }) "V" "https://x.de"
        EventCategory.radar [("k", MetaVal.i 3)] = Except.ok ev
      ∧ ev.title = "A" ∧ ev.venue = "V" ∧ ev.url = "https://x.de"
      ∧ ev.category = EventCategory.radar ∧ ev.metadata = [("k", MetaVal.i 3)])
    ∧ (∃ ev, mkEventDefault "A" (DateInput.dt { wall := 100, tzoff := none }) "V" ""
        EventCategory.radar = Except.ok ev ∧ ev.metadata = []) := by
  constructor
  · refine ⟨evFrameW, by decide, ?_⟩
    have hf := (event_construction_frame.1 "A" { wall := 100, tzoff := none } "V"
      "https://x.de" EventCategory.radar [("k", MetaVal.i 3)] evFrameW (by decide))
    exact ⟨hf.1, hf.2.1, hf.2.2.1, hf.2.2.2.1, hf.2.2.2.2.1⟩
  · refine ⟨evDefaultW, by decide, ?_⟩
    exact event_construction_frame.2 "A" { wall := 100, tzoff := none } "V" ""
      EventCategory.radar evDefaultW (by decide)
